import Mathlib

/-!
Verification development for the MemFlow memory-dump analysis pipeline
(`cli_tool/memflow-cli_v2.py`).

The Python source is shallowly embedded: file bytes are `List Nat`,
Python dicts are insertion-ordered association lists with overwrite
semantics (`dictInsert` / `dictFind`), fallible code returns `Except`,
and the nondeterministic completion order of the thread pool in
`run_vol_parallel` is an explicit `order` parameter (a permutation of
the submitted command list).  Free-text messages that the source builds
with f-strings over structured data are modelled by the `Evidence`
inductive carrying that same data.
-/

namespace MemFlow

/-! ## Python-style substring search on lists (bytes.count / bytes.find / in) -/

/-- Boolean prefix test, mirroring a byte-by-byte comparison. -/
def isPrefixOfB [BEq α] : List α → List α → Bool
  | [], _ => true
  | _ :: _, [] => false
  | a :: s, b :: t => a == b && isPrefixOfB s t

/-- Scan for the first position at which `sig` is a prefix, carrying
the absolute index (tail recursion keeps the scan kernel-computable on
multi-kilobyte samples). -/
def findSubFrom [BEq α] (sig : List α) : Nat → List α → Option Nat
  | i, [] => if isPrefixOfB sig [] then some i else none
  | i, a :: rest =>
    if isPrefixOfB sig (a :: rest) then some i
    else findSubFrom sig (i + 1) rest

/-- Index of the first occurrence of `sig` as a contiguous sublist,
mirroring Python `bytes.find` (restricted to the found case). -/
def findSub [BEq α] (sig : List α) (l : List α) : Option Nat :=
  findSubFrom sig 0 l

/-- Python membership `sig in hay` for byte strings. -/
def occursIn [BEq α] (sig hay : List α) : Bool :=
  (findSub sig hay).isSome

theorem isPrefixOfB_length [BEq α] {s t : List α} (h : isPrefixOfB s t = true) :
    s.length ≤ t.length := by
  induction s generalizing t with
  | nil => simp
  | cons a s ih =>
    cases t with
    | nil => simp [isPrefixOfB] at h
    | cons b t =>
      simp only [isPrefixOfB, Bool.and_eq_true] at h
      simpa [List.length_cons, Nat.succ_le_succ_iff] using ih h.2

theorem findSubFrom_some_bound [BEq α] {sig : List α} (hsig : sig ≠ []) :
    ∀ {l : List α} {i j : Nat}, findSubFrom sig i l = some j →
      i ≤ j ∧ (j - i) + sig.length ≤ l.length := by
  intro l
  induction l with
  | nil =>
    intro i j h
    have hp : isPrefixOfB sig ([] : List α) = false := by
      cases sig with
      | nil => exact absurd rfl hsig
      | cons a s => rfl
    simp [findSubFrom, hp] at h
  | cons a rest ih =>
    intro i j h
    by_cases hp : isPrefixOfB sig (a :: rest) = true
    · simp [findSubFrom, hp] at h
      subst h
      have := isPrefixOfB_length hp
      constructor
      · exact Nat.le_refl i
      · simpa using this
    · simp [findSubFrom, hp] at h
      obtain ⟨h1, h2⟩ := ih h
      constructor
      · omega
      · simp only [List.length_cons]
        omega

theorem findSub_some_bound [BEq α] {sig l : List α} {i : Nat}
    (hsig : sig ≠ []) (h : findSub sig l = some i) :
    i + sig.length ≤ l.length := by
  have := findSubFrom_some_bound hsig h
  omega

/-- Recursion core of the occurrence count, structural on a fuel
argument so that the definition stays kernel-computable.  Every
recursive step removes at least one element from the scanned list (a
match of a nonempty pattern at position `i` implies `i + len(sig) ≥ 1`
elements are dropped, by `findSub_some_bound`), so with fuel
`sample.length + 1` the 0-fuel branch is never reached. -/
def countOccsAux [BEq α] (sig : List α) : Nat → List α → Nat
  | 0, _ => 0
  | fuel + 1, sample =>
    if sig.isEmpty then sample.length + 1
    else
      match findSub sig sample with
      | none => 0
      | some i => 1 + countOccsAux sig fuel (sample.drop (i + sig.length))

/-- Non-overlapping occurrence count, mirroring Python `bytes.count`:
after a match at position `i`, the scan resumes at `i + len(sig)`.
(`bytes.count` of the empty pattern is `len + 1`.) -/
def countOccs [BEq α] (sig : List α) (sample : List α) : Nat :=
  countOccsAux sig (sample.length + 1) sample

/-! ## Python dict semantics (insertion-ordered association lists) -/

/-- Key membership in an association list. -/
def containsKey (d : List (String × α)) (k : String) : Bool :=
  d.any (fun p => p.1 == k)

/-- Python `d[k] = v`: overwrite in place if the key exists (keeping its
position), else append at the end. -/
def dictInsert (d : List (String × α)) (k : String) (v : α) : List (String × α) :=
  if containsKey d k then d.map (fun p => if p.1 == k then (k, v) else p)
  else d ++ [(k, v)]

/-- Python `d.get(k)`: value of the first (hence only) entry for `k`. -/
def dictFind (d : List (String × α)) (k : String) : Option α :=
  (d.find? (fun p => p.1 == k)).map Prod.snd

theorem dictInsert_fresh {d : List (String × α)} {k : String} (v : α)
    (h : containsKey d k = false) : dictInsert d k v = d ++ [(k, v)] := by
  simp [dictInsert, h]

theorem containsKey_append {d e : List (String × α)} {k : String} :
    containsKey (d ++ e) k = (containsKey d k || containsKey e k) := by
  simp [containsKey, List.any_append]

theorem dictFind_cons_pos {p : String × α} {l : List (String × α)} {k : String}
    (hk : (p.1 == k) = true) : dictFind (p :: l) k = some p.2 := by
  unfold dictFind
  rw [List.find?_cons_of_pos (p := fun q => q.1 == k) l hk]
  rfl

theorem dictFind_cons_neg {p : String × α} {l : List (String × α)} {k : String}
    (hk : (p.1 == k) = false) : dictFind (p :: l) k = dictFind l k := by
  unfold dictFind
  rw [List.find?_cons_of_neg (p := fun q => q.1 == k) l (by simp [hk])]

theorem dictFind_append_of_not_left {d e : List (String × α)} {k : String}
    (h : containsKey d k = false) : dictFind (d ++ e) k = dictFind e k := by
  induction d with
  | nil => rfl
  | cons p rest ih =>
    simp only [containsKey, List.any_cons, Bool.or_eq_false_iff] at h
    rw [List.cons_append, dictFind_cons_neg h.1]
    exact ih h.2

theorem dictFind_append_left {d e : List (String × α)} {k : String} {v : α}
    (h : dictFind d k = some v) : dictFind (d ++ e) k = some v := by
  induction d with
  | nil => simp [dictFind] at h
  | cons p rest ih =>
    by_cases hk : (p.1 == k) = true
    · rw [dictFind_cons_pos hk] at h
      rw [List.cons_append, dictFind_cons_pos hk]
      exact h
    · rw [dictFind_cons_neg (Bool.eq_false_iff.mpr hk)] at h
      rw [List.cons_append, dictFind_cons_neg (Bool.eq_false_iff.mpr hk)]
      exact ih h

/-! ## Signature tables (static catalogs from the source) -/

/-- FORMAT_SIGNATURES, in source declaration order (Python dicts preserve
insertion order, which is the iteration order of the detection loop). -/
def FORMAT_SIGNATURES : List (String × List (List Nat)) := [
  ("WINDOWS_CRASH_DUMP", [[80, 65, 71, 69, 68, 85, 77, 80], [80, 65, 71, 69], [77, 68, 77, 80]]),
  ("WINDOWS_HIBERNATION", [[104, 105, 98, 114], [129, 0, 0, 0]]),
  ("ELF_CORE", [[127, 69, 76, 70]]),
  ("LIME", [[69, 77, 105, 76]]),
  ("VMWARE", [[46, 118, 109, 101, 109]]),
  ("VIRTUALBOX", [[86, 105, 114, 116, 117, 97, 108, 66, 111, 120]])
]

/-- WINDOWS_SIGNATURES byte strings. -/
def WINDOWS_SIGNATURES : List (List Nat) := [
  [83, 121, 115, 116, 101, 109, 82, 111, 111, 116],  -- SystemRoot
  [75, 68, 66, 71],                                  -- KDBG
  [110, 116, 111, 115, 107, 114, 110, 108],          -- ntoskrnl
  [92, 87, 105, 110, 100, 111, 119, 115, 92],        -- backslash Windows backslash
  [92, 87, 73, 78, 68, 79, 87, 83, 92],              -- backslash WINDOWS backslash
  [77, 90, 144, 0],                                  -- MZ 0x90 0x00 (PE header)
  [95, 69, 80, 82, 79, 67, 69, 83, 83],              -- _EPROCESS
  [95, 75, 84, 72, 82, 69, 65, 68]                   -- _KTHREAD
]

/-- LINUX_SIGNATURES byte strings. -/
def LINUX_SIGNATURES : List (List Nat) := [
  [76, 105, 110, 117, 120, 32, 118, 101, 114, 115, 105, 111, 110],  -- Linux version
  [47, 108, 105, 98, 47, 109, 111, 100, 117, 108, 101, 115, 47],    -- /lib/modules/
  [47, 117, 115, 114, 47, 98, 105, 110, 47],                        -- /usr/bin/
  [47, 101, 116, 99, 47],                                           -- /etc/
  [116, 97, 115, 107, 95, 115, 116, 114, 117, 99, 116],             -- task_struct
  [105, 110, 105, 116, 95, 116, 97, 115, 107]                       -- init_task
]

/-- MAC_SIGNATURES byte strings. -/
def MAC_SIGNATURES : List (List Nat) := [
  [68, 97, 114, 119, 105, 110, 32, 75, 101, 114, 110, 101, 108],            -- Darwin Kernel
  [99, 111, 109, 46, 97, 112, 112, 108, 101, 46],                           -- com.apple.
  [47, 83, 121, 115, 116, 101, 109, 47, 76, 105, 98, 114, 97, 114, 121, 47], -- System Library path
  [95, 95, 80, 65, 71, 69, 90, 69, 82, 79],                                 -- __PAGEZERO
  [77, 97, 99, 104, 45, 79]                                                 -- Mach-O
]

/-- The four compression magic prefixes in `_check_compression`:
gzip, bzip2 (BZ), zip (PK), xz. -/
def compression_signatures : List (List Nat) :=
  [[31, 139], [66, 90], [80, 75], [253, 55]]

/-- MIN_FILE_SIZE constant (1 KiB). -/
def MIN_FILE_SIZE : Nat := 1024

/-- HEURISTIC_SAMPLE_SIZE constant (4 MB). -/
def HEURISTIC_SAMPLE_SIZE : Nat := 4000000

/-- DEFAULT_TIMEOUT constant (seconds). -/
def DEFAULT_TIMEOUT : Nat := 300

/-! ## Enumerations and result records -/

/-- DumpFormat enumeration. -/
inductive DumpFormat
  | raw
  | windows_crash
  | windows_hibernation
  | elf_core
  | lime
  | vmware
  | virtualbox
  | unknown
  deriving DecidableEq, Repr

/-- OSType enumeration. -/
inductive OSType
  | windows
  | linux
  | macos
  | unknown
  deriving DecidableEq, Repr

/-- Evidence strings of the source, modelled structurally: each
constructor carries the data the source interpolates into the
corresponding f-string, instead of the rendered text. -/
inductive Evidence
  -- "Found <formatName> signature: <first 8 bytes of sig>"
  | foundFormatSig (formatName : String) (sigPrefix : List Nat)
  -- "No specific format signatures found, assuming raw dump"
  | noFormatSig
  -- "Found <n> <osName> kernel signature(s)"
  | kernelSigCount (osName : String) (n : Nat)
  -- "Signature: <decoded first 20 bytes of sig>"
  | signatureSnippet (sigBytes : List Nat)
  -- "No OS-specific signatures found"
  | noOSSignatures
  -- "Unknown OS"
  | unknownOS
  -- "Error during OS detection: <msg>"
  | osDetectionError (msg : String)
  deriving DecidableEq, Repr

/-- FormatInfo dataclass. -/
structure FormatInfo where
  format_type : DumpFormat
  confidence : Nat
  evidence : List Evidence
  size_bytes : Nat
  is_compressed : Bool
  deriving DecidableEq, Repr

/-- MemflowError hierarchy: the base error and the distinguished
VolatilityNotFoundError subclass, each carrying its message. -/
inductive MemflowError
  | memflowError (msg : String)
  | volatilityNotFound (msg : String)
  deriving DecidableEq, Repr

/-- Python `str(e)` on a MemflowError: the message. -/
def errStr : MemflowError → String
  | .memflowError m => m
  | .volatilityNotFound m => m

/-! ## Format detection (`detect_dump_format`, `_map_format_name`,
`_check_compression`) -/

/-- `_map_format_name`: dictionary lookup with UNKNOWN default. -/
def map_format_name (format_name : String) : DumpFormat :=
  if format_name == "WINDOWS_CRASH_DUMP" then .windows_crash
  else if format_name == "WINDOWS_HIBERNATION" then .windows_hibernation
  else if format_name == "ELF_CORE" then .elf_core
  else if format_name == "LIME" then .lime
  else if format_name == "VMWARE" then .vmware
  else if format_name == "VIRTUALBOX" then .virtualbox
  else .unknown

/-- `_check_compression`: does the header start with one of the four
compression magics. -/
def check_compression (header : List Nat) : Bool :=
  compression_signatures.any (fun sig => isPrefixOfB sig header)

/-- The nested signature loop of `detect_dump_format`: first table entry
(in declaration order) one of whose signatures occurs in `hdr`, paired
with the first such signature. -/
def findFormatMatch (table : List (String × List (List Nat))) (hdr : List Nat) :
    Option (String × List Nat) :=
  match table with
  | [] => none
  | (name, sigs) :: rest =>
    match sigs.find? (fun sig => occursIn sig hdr) with
    | some sig => some (name, sig)
    | none => findFormatMatch rest hdr

/-- Body of `detect_dump_format` after the 512-byte header has been
read: signatures are matched against the first 64 bytes; on a match,
confidence 90 and is_compressed false; otherwise raw with confidence 50
and the compression probe on the full header. -/
def detect_dump_format_core (header : List Nat) (size_bytes : Nat) : FormatInfo :=
  match findFormatMatch FORMAT_SIGNATURES (header.take 64) with
  | some (name, sig) =>
    { format_type := map_format_name name
      confidence := 90
      evidence := [Evidence.foundFormatSig name (sig.take 8)]
      size_bytes := size_bytes
      is_compressed := false }
  | none =>
    { format_type := DumpFormat.raw
      confidence := 50
      evidence := [Evidence.noFormatSig]
      size_bytes := size_bytes
      is_compressed := check_compression header }

/-! ## OS classification (`_calculate_signature_score`,
`_generate_evidence`, `enhanced_os_detection`) -/

/-- `_calculate_signature_score`: each signature with a positive
non-overlapping occurrence count contributes count times 10 weighted by
position (weight 1.0 inside the first quarter of the sample, 0.5
after).  The Python float accumulator only ever holds integer values
(count*10*1.0 and count*10*0.5 = count*5 are exact), so the final
`int(score)` is the plain natural-number sum. -/
def calculate_signature_score (sample : List Nat) (signatures : List (List Nat)) : Nat :=
  signatures.foldl
    (fun score sig =>
      let count := countOccs sig sample
      if 0 < count then
        let pos := (findSub sig sample).getD 0
        score + (if pos < sample.length / 4 then count * 10 else count * 5)
      else score)
    0

/-- `_generate_evidence`: count of distinct matched signatures plus up
to 3 snippets (the source decodes each signature best-effort and keeps
20 characters; the model keeps the first 20 bytes). -/
def generate_evidence (os_type : OSType) (sample : List Nat) : List Evidence :=
  match os_type with
  | .unknown => [Evidence.unknownOS]
  | _ =>
    let sigs := match os_type with
      | .windows => WINDOWS_SIGNATURES
      | .linux => LINUX_SIGNATURES
      | _ => MAC_SIGNATURES
    let osName := match os_type with
      | .windows => "Windows"
      | .linux => "Linux"
      | _ => "macOS"
    let found := sigs.filter (fun sig => occursIn sig sample)
    if found.isEmpty then []
    else Evidence.kernelSigCount osName found.length ::
      (found.take 3).map (fun sig => Evidence.signatureSnippet (sig.take 20))

/-- Python `max(scores, key=scores.get)` over the insertion-ordered dict
windows, linux, macos: the first key attaining the maximum wins (a later
key replaces the current best only when strictly greater). -/
def pickOS (w l m : Nat) : OSType :=
  if l > w then (if m > l then .macos else .linux)
  else if m > w then .macos else .windows

/-- `scores[detected_os]`. -/
def osScoreOf (w l m : Nat) : OSType → Nat
  | .windows => w
  | .linux => l
  | .macos => m
  | .unknown => 0

/-- Body of `enhanced_os_detection` on an in-memory sample. -/
def enhanced_os_detection_core (sample : List Nat) : OSType × List Evidence × Nat :=
  let windows_score := calculate_signature_score sample WINDOWS_SIGNATURES
  let linux_score := calculate_signature_score sample LINUX_SIGNATURES
  let mac_score := calculate_signature_score sample MAC_SIGNATURES
  let detected_os := pickOS windows_score linux_score mac_score
  let max_score := osScoreOf windows_score linux_score mac_score detected_os
  if 0 < max_score then
    (detected_os, generate_evidence detected_os sample, min 100 (50 + max_score))
  else
    (OSType.unknown, [Evidence.noOSSignatures], 0)

/-! ## Plugin catalogs and `_select_plugins` -/

/-- A per-OS plugin catalog keyed by tier name, mirroring the source
dicts (missing tiers are empty). -/
structure PluginCatalog where
  essential : List String
  network : List String
  registry : List String
  malware : List String
  advanced : List String
  deriving DecidableEq, Repr

/-- WINDOWS_PLUGINS. -/
def WINDOWS_PLUGINS : PluginCatalog :=
  { essential := ["windows.info", "windows.pslist", "windows.pstree", "windows.cmdline"]
    network := ["windows.netscan", "windows.netstat"]
    registry := ["windows.registry.hivelist", "windows.registry.printkey"]
    malware := ["windows.malfind", "windows.dlllist", "windows.handles"]
    advanced := ["windows.filescan", "windows.driverscan", "windows.svcscan",
                 "windows.envars", "windows.sessions"] }

/-- LINUX_PLUGINS. -/
def LINUX_PLUGINS : PluginCatalog :=
  { essential := ["linux.bash", "linux.pslist", "linux.pstree"]
    network := ["linux.sockstat"]
    registry := []
    malware := []
    advanced := ["linux.lsmod", "linux.lsof", "linux.mountinfo", "linux.proc"] }

/-- MACOS_PLUGINS. -/
def MACOS_PLUGINS : PluginCatalog :=
  { essential := ["mac.pslist", "mac.pstree"]
    network := ["mac.netstat"]
    registry := []
    malware := []
    advanced := ["mac.lsmod", "mac.lsof"] }

/-- `_select_plugins`: tier lists are concatenated in declaration order,
gated on the requested level.  (The `registry` tier of WINDOWS_PLUGINS
is never selected, exactly as in the source.)  For unknown OS the
fallback is the Windows essential tier plus the first two Linux
essential commands. -/
def select_plugins (os_type : OSType) (level : String) : List String :=
  match os_type with
  | .windows =>
    WINDOWS_PLUGINS.essential ++
    (if level == "standard" || level == "advanced" || level == "full" then
      WINDOWS_PLUGINS.network else []) ++
    (if level == "advanced" || level == "full" then WINDOWS_PLUGINS.malware else []) ++
    (if level == "full" then WINDOWS_PLUGINS.advanced else [])
  | .linux =>
    LINUX_PLUGINS.essential ++
    (if level == "standard" || level == "advanced" || level == "full" then
      LINUX_PLUGINS.network else []) ++
    (if level == "advanced" || level == "full" then LINUX_PLUGINS.advanced else [])
  | .macos =>
    MACOS_PLUGINS.essential ++
    (if level == "standard" || level == "advanced" || level == "full" then
      MACOS_PLUGINS.network else []) ++
    (if level == "advanced" || level == "full" then MACOS_PLUGINS.advanced else [])
  | .unknown =>
    WINDOWS_PLUGINS.essential ++ LINUX_PLUGINS.essential.take 2

/-! ## Execution environment

The pieces of the host environment the pipeline interacts with: the
file system (existence, regular-file flag, size, readability, bytes)
and the external tool (resolvability and per-command subprocess
behavior).  The nondeterministic completion order of `as_completed` is
a function from the submitted batch to the order in which the workers
finish. -/

/-- What one `subprocess.run` invocation does for a given command. -/
inductive RunOutcome
  | completed (returncode : Nat) (stdout : String) (stderr : String)
  | timedOut
  | raised (msg : String)

/-- Host environment of one pipeline run. -/
structure Env where
  path : String
  pathExists : Bool
  isFile : Bool
  sizeBytes : Nat
  readOk : Bool
  readErr : String
  content : List Nat
  volResolved : Bool
  outcome : String → RunOutcome
  order : List String → List String

/-- Message of the VolatilityNotFoundError raised by `run_vol`. -/
def volNotFoundMsg : String := "Volatility3 not found. Please install it first."

/-- `run_vol`: raises VolatilityNotFoundError when the tool cannot be
resolved; otherwise returns the captured stdout when the exit code is 0
and stdout is non-empty, and None on timeout, nonzero exit, empty
stdout, or any other exception (all only logged to stderr). -/
def run_vol (env : Env) (command : String) : Except MemflowError (Option String) :=
  if env.volResolved then
    .ok (match env.outcome command with
      | .completed rc out _ => if rc == 0 && out ≠ "" then some out else none
      | .timedOut => none
      | .raised _ => none)
  else
    .error (.volatilityNotFound volNotFoundMsg)

/-- Python truthiness of an `Optional[str]`. -/
def pyFalsy : Option String → Bool
  | none => true
  | some s => s == ""

/-- Values of the heterogeneous `results` dict of `run_vol_parallel`:
per-plugin optional output, plus the failure sub-dict stored under the
reserved key. -/
inductive DictVal
  | output (o : Option String)
  | failureMap (m : List (String × String))
  deriving DecidableEq, Repr

/-- Python `result is not None` on a dict value. -/
def dv_isNotNone : DictVal → Bool
  | .output o => o.isSome
  | .failureMap _ => true

/-- One iteration of the `as_completed` loop of `run_vol_parallel`: a
normal result is recorded (with a "No output returned" failure entry
when falsy); an exception escaping the worker is converted to a None
result plus a failure entry carrying `str(e)`. -/
def runnerStep (env : Env) (st : List (String × DictVal) × List (String × String))
    (plugin : String) : List (String × DictVal) × List (String × String) :=
  match run_vol env plugin with
  | .ok output =>
    (dictInsert st.1 plugin (DictVal.output output),
     if pyFalsy output then dictInsert st.2 plugin "No output returned" else st.2)
  | .error e =>
    (dictInsert st.1 plugin (DictVal.output none), dictInsert st.2 plugin (errStr e))

/-- `run_vol_parallel` processing the completed futures in completion
order `order` (a permutation of the submitted plugin list): the result
dict keyed by plugin name, with the failure dict stored under the
reserved key at the end. -/
def run_vol_parallel (env : Env) (order : List String) : List (String × DictVal) :=
  let st := order.foldl (runnerStep env) ([], [])
  dictInsert st.1 "_failures" (DictVal.failureMap st.2)

/-- The per-plugin result as a plain option (None both for a falsy
result and for a caught exception). -/
def resultOf (env : Env) (p : String) : Option String :=
  match run_vol env p with
  | .ok v => v
  | .error _ => none

/-- The failure-dict entry `run_vol_parallel` records for a plugin, if
any. -/
def failureOf (env : Env) (p : String) : Option String :=
  match run_vol env p with
  | .error e => some (errStr e)
  | .ok v => if pyFalsy v then some "No output returned" else none

/-- Python `plugin_results.pop(..., {})` reading side: the failure
sub-dict stored under the reserved key. -/
def failuresOf (d : List (String × DictVal)) : List (String × String) :=
  match dictFind d "_failures" with
  | some (.failureMap m) => m
  | _ => []

/-- Python `plugin_results.get(name)` collapsing an absent key and a
stored None to None. -/
def getOutput (d : List (String × DictVal)) (k : String) : Option String :=
  match dictFind d k with
  | some (.output v) => v
  | _ => none

/-- Python `plugin_results.get(name) is not None`. -/
def getIsSome (d : List (String × DictVal)) (k : String) : Bool :=
  match dictFind d k with
  | some (.output (some _)) => true
  | _ => false

/-! ## File-level wrappers for detection -/

/-- `detect_dump_format` on the environment: reads the 512-byte header;
a read failure is re-raised as MemflowError (never guessed over). -/
def detect_dump_format (env : Env) : Except MemflowError FormatInfo :=
  if env.readOk then
    .ok (detect_dump_format_core (env.content.take 512) env.sizeBytes)
  else
    .error (.memflowError ("Format detection failed: " ++ env.readErr))

/-- `enhanced_os_detection` on the environment: total at its boundary;
a read failure (or any exception inside the try block) is absorbed into
an unknown classification with confidence 0 and an error evidence
entry. -/
def enhanced_os_detection (env : Env) : OSType × List Evidence × Nat :=
  if env.readOk then
    enhanced_os_detection_core (env.content.take HEURISTIC_SAMPLE_SIZE)
  else
    (OSType.unknown, [Evidence.osDetectionError env.readErr], 0)

/-- `file_hashes`: the digests themselves are outside the model; what
matters to the pipeline is that a read failure is re-raised as
MemflowError. -/
def file_hashes (env : Env) : Except MemflowError Unit :=
  if env.readOk then .ok ()
  else .error (.memflowError ("Failed to calculate hashes: " ++ env.readErr))

/-! ## `parse_windows_info` (key/value parser) -/

/-- Python default `str.strip` whitespace (ASCII part). -/
def pyIsSpace (c : Char) : Bool :=
  c == ' ' || c == '\t' || c.toNat == 10 || c.toNat == 13 || c.toNat == 11 || c.toNat == 12

/-- Python `str.strip()`. -/
def pyStrip (s : List Char) : List Char :=
  ((s.dropWhile pyIsSpace).reverse.dropWhile pyIsSpace).reverse

/-- Python `str.split(chr(10))`. -/
def splitLines : List Char → List (List Char)
  | [] => [[]]
  | c :: rest =>
    if c.toNat == 10 then [] :: splitLines rest
    else
      match splitLines rest with
      | l :: ls => (c :: l) :: ls
      | [] => [[c]]

/-- Leftmost match of the separator regex (a run of tabs, or a run of
at least two whitespace characters) with maxsplit one: returns the text
before the separator and the text after it, or none when no separator
occurs.  The alternation tries the tab run first at each position, as
the regex engine does. -/
def findTabSplit : List Char → Option (List Char × List Char)
  | [] => none
  | c :: rest =>
    if c == '\t' then some ([], rest.dropWhile (fun d => d == '\t'))
    else if pyIsSpace c && (match rest with | d :: _ => pyIsSpace d | [] => false) then
      some ([], rest.dropWhile pyIsSpace)
    else
      (findTabSplit rest).map (fun pr => (c :: pr.1, pr.2))

/-- `parse_windows_info`: key/value lines split at the first tab run or
multi-space run, skipping blank lines, banner lines and header lines;
returns None for falsy input or when nothing parsed. -/
def parse_windows_info (raw_output : Option String) : Option (List (String × String)) :=
  match raw_output with
  | none => none
  | some raw =>
    if raw == "" then none
    else
      let lines := splitLines (pyStrip raw.toList)
      let parsed := lines.foldl
        (fun acc line =>
          let line := pyStrip line
          if line.isEmpty then acc
          else if occursIn "Volatility 3".toList line then acc
          else if isPrefixOfB "Variable".toList line then acc
          else if isPrefixOfB "===".toList line then acc
          else
            match findTabSplit line with
            | none => acc
            | some (k, v) =>
              let key := pyStrip k
              let value := pyStrip v
              if key.isEmpty || value.isEmpty then acc
              else dictInsert acc (String.mk key) (String.mk value))
        []
      if parsed.isEmpty then none else some parsed

/-! ## Confidence fusion (`determine_os_confidence`) -/

/-- The `volatility_confirms` dict read back through
`.get(os_type, False)`. -/
def volatility_confirms (os_type : OSType)
    (windows_info : Option (List (String × String)))
    (linux_success mac_success : Bool) : Bool :=
  match os_type with
  | .windows => windows_info.isSome
  | .linux => linux_success
  | .macos => mac_success
  | .unknown => false

/-- The summary dict built by `determine_os_confidence`. -/
structure OSDetectionSummary where
  operating_system : OSType
  confidence_score : Nat
  confidence_level : String
  detection_method : String
  evidence : List Evidence
  windows_compatible : Bool
  linux_compatible : Bool
  macos_compatible : Bool
  deriving DecidableEq, Repr

/-- `determine_os_confidence`: fuses the heuristic triple with the
tool-confirmation signals, by the four-branch rule of the source. -/
def determine_os_confidence (os_detection : OSType × List Evidence × Nat)
    (windows_info : Option (List (String × String)))
    (linux_success mac_success : Bool) : OSDetectionSummary :=
  let os_type := os_detection.1
  let evidence := os_detection.2.1
  let heuristic_confidence := os_detection.2.2
  let confirmed := volatility_confirms os_type windows_info linux_success mac_success
  let fused : Nat × String × String :=
    if confirmed then
      (min 100 (heuristic_confidence + 30), "HIGH", "Heuristic + Volatility Confirmation")
    else if 70 ≤ heuristic_confidence then
      (heuristic_confidence, "MEDIUM", "Heuristic Only")
    else if 0 < heuristic_confidence then
      (heuristic_confidence, "LOW", "Heuristic Only (Weak)")
    else
      (0, "NONE", "No OS signatures detected")
  { operating_system := os_type
    confidence_score := fused.1
    confidence_level := fused.2.1
    detection_method := fused.2.2
    evidence := evidence
    windows_compatible := windows_info.isSome
    linux_compatible := linux_success
    macos_compatible := mac_success }

/-! ## The analysis entry point (`full_analysis`) -/

/-- The validation prefix of `full_analysis` (lines checking existence,
regular-file-ness and the 1 KiB size floor, in that order). -/
def validate_dump (env : Env) : Except MemflowError Unit :=
  if env.pathExists = false then
    .error (.memflowError ("File not found: " ++ env.path))
  else if env.isFile = false then
    .error (.memflowError ("Not a file: " ++ env.path))
  else if env.sizeBytes < MIN_FILE_SIZE then
    .error (.memflowError
      ("File too small (" ++ toString env.sizeBytes ++ " bytes), likely not a valid memory dump"))
  else
    .ok ()

/-- The final report, restricted to the fields the verified claims
concern (hash digests, parsed process/network tables and timing data
are carried by the real report but not referenced by any claim). -/
structure Report where
  plugin_level : String
  plugins_executed : Nat
  plugins_successful : Nat
  size_bytes : Nat
  format : FormatInfo
  os_detection : OSDetectionSummary
  plugin_failures : Option (List (String × String))
  plugins_attempted : List (String × Bool)
  deriving DecidableEq, Repr

/-- `full_analysis`: validation, format detection, hashing, OS
detection, plugin selection, parallel execution, fusion, report.
Exceptions propagate only from validation, format detection and
hashing; per-plugin failures are absorbed into the report. -/
def full_analysis (env : Env) (plugin_level : String) : Except MemflowError Report :=
  match validate_dump env with
  | .error e => .error e
  | .ok _ =>
    match detect_dump_format env with
    | .error e => .error e
    | .ok format_info =>
      match file_hashes env with
      | .error e => .error e
      | .ok _ =>
        let os_detection := enhanced_os_detection env
        let plugins_to_run := select_plugins os_detection.1 plugin_level
        let raw_results := run_vol_parallel env (env.order plugins_to_run)
        let failures := failuresOf raw_results
        let plugin_results := raw_results.filter (fun pr => !(pr.1 == "_failures"))
        let successful := (plugin_results.filter (fun pr => dv_isNotNone pr.2)).length
        let windows_info := parse_windows_info (getOutput plugin_results "windows.info")
        let os_final := determine_os_confidence os_detection windows_info
          (getIsSome plugin_results "linux.pslist") (getIsSome plugin_results "mac.pslist")
        .ok
          { plugin_level := plugin_level
            plugins_executed := plugins_to_run.length
            plugins_successful := successful
            size_bytes := env.sizeBytes
            format := format_info
            os_detection := os_final
            plugin_failures := if failures.isEmpty then none else some failures
            plugins_attempted := plugin_results.map (fun pr => (pr.1, dv_isNotNone pr.2)) }

/-! ## Closed form of the parallel runner fold -/

/-- The `results` entry recorded for one completed plugin. -/
def entryOf (env : Env) (p : String) : String × DictVal :=
  (p, DictVal.output (resultOf env p))

/-- The `failures` entry recorded for one completed plugin, if any. -/
def failEntryOf (env : Env) (p : String) : Option (String × String) :=
  (failureOf env p).map (fun r => (p, r))

theorem runnerStep_eq (env : Env) (st : List (String × DictVal) × List (String × String))
    (p : String) :
    runnerStep env st p =
      (dictInsert st.1 p (DictVal.output (resultOf env p)),
       match failureOf env p with
       | some r => dictInsert st.2 p r
       | none => st.2) := by
  unfold runnerStep resultOf failureOf
  cases h : run_vol env p with
  | ok v =>
    cases hv : pyFalsy v with
    | true => simp [hv]
    | false => simp [hv]
  | error e => simp

theorem runnerStep_eq_some {env : Env} {p r : String}
    (st : List (String × DictVal) × List (String × String))
    (hf : failureOf env p = some r) :
    runnerStep env st p =
      (dictInsert st.1 p (DictVal.output (resultOf env p)), dictInsert st.2 p r) := by
  rw [runnerStep_eq, hf]

theorem runnerStep_eq_none {env : Env} {p : String}
    (st : List (String × DictVal) × List (String × String))
    (hf : failureOf env p = none) :
    runnerStep env st p =
      (dictInsert st.1 p (DictVal.output (resultOf env p)), st.2) := by
  rw [runnerStep_eq, hf]

theorem failEntry_cons_some {env : Env} {p r : String} {rest : List String}
    (hf : failureOf env p = some r) :
    (p :: rest).filterMap (failEntryOf env) = (p, r) :: rest.filterMap (failEntryOf env) := by
  rw [List.filterMap_cons]
  simp [failEntryOf, hf]

theorem failEntry_cons_none {env : Env} {p : String} {rest : List String}
    (hf : failureOf env p = none) :
    (p :: rest).filterMap (failEntryOf env) = rest.filterMap (failEntryOf env) := by
  rw [List.filterMap_cons]
  simp [failEntryOf, hf]

theorem containsKey_singleton {p : String × α} {q : String} (h : p.1 ≠ q) :
    containsKey [p] q = false := by
  simp [containsKey, h]

theorem runnerFold_closed (env : Env) :
    ∀ (order : List String) (init : List (String × DictVal) × List (String × String)),
    order.Nodup →
    (∀ p ∈ order, containsKey init.1 p = false ∧ containsKey init.2 p = false) →
    order.foldl (runnerStep env) init =
      (init.1 ++ order.map (entryOf env), init.2 ++ order.filterMap (failEntryOf env)) := by
  intro order
  induction order with
  | nil => intro init _ _; simp
  | cons p rest ih =>
    intro init hnd hfresh
    obtain ⟨hp1, hp2⟩ := hfresh p (List.mem_cons_self p rest)
    have hpr : p ∉ rest := (List.nodup_cons.mp hnd).1
    have hndr : rest.Nodup := (List.nodup_cons.mp hnd).2
    have hfresh1 : ∀ q ∈ rest, q ≠ p ∧
        containsKey init.1 q = false ∧ containsKey init.2 q = false := by
      intro q hq
      exact ⟨fun hqp => hpr (hqp ▸ hq),
        (hfresh q (List.mem_cons_of_mem p hq)).1,
        (hfresh q (List.mem_cons_of_mem p hq)).2⟩
    rw [List.foldl_cons]
    cases hf : failureOf env p with
    | some r =>
      rw [runnerStep_eq_some init hf, dictInsert_fresh _ hp1, dictInsert_fresh _ hp2,
        ih (init.1 ++ [(p, DictVal.output (resultOf env p))], init.2 ++ [(p, r)]) hndr ?_]
      · rw [List.map_cons, failEntry_cons_some hf]
        show (_ ++ _ ++ _, _ ++ _ ++ _) = _
        rw [List.append_assoc, List.append_assoc]
        rfl
      · intro q hq
        obtain ⟨hqp, hq1, hq2⟩ := hfresh1 q hq
        constructor
        · rw [containsKey_append, hq1, containsKey_singleton (by simpa using hqp.symm)]
          rfl
        · rw [containsKey_append, hq2, containsKey_singleton (by simpa using hqp.symm)]
          rfl
    | none =>
      rw [runnerStep_eq_none init hf, dictInsert_fresh _ hp1,
        ih (init.1 ++ [(p, DictVal.output (resultOf env p))], init.2) hndr ?_]
      · rw [List.map_cons, failEntry_cons_none hf]
        show (_ ++ _ ++ _, _ ++ _) = _
        rw [List.append_assoc]
        rfl
      · intro q hq
        obtain ⟨hqp, hq1, hq2⟩ := hfresh1 q hq
        constructor
        · rw [containsKey_append, hq1, containsKey_singleton (by simpa using hqp.symm)]
          rfl
        · exact hq2

theorem containsKey_map_entry_false (env : Env) {order : List String} {q : String}
    (h : q ∉ order) : containsKey (order.map (entryOf env)) q = false := by
  induction order with
  | nil => rfl
  | cons p rest ih =>
    have hpq : p ≠ q := fun hx => h (hx ▸ List.mem_cons_self p rest)
    have hq : q ∉ rest := fun hx => h (List.mem_cons_of_mem p hx)
    rw [List.map_cons]
    show (List.any _ _) = false
    rw [List.any_cons]
    have h1 : ((entryOf env p).1 == q) = false := by simpa [entryOf] using hpq
    rw [h1]
    simp only [Bool.false_or]
    exact ih hq

theorem run_vol_parallel_closed (env : Env) {order : List String}
    (hnd : order.Nodup) (hf : "_failures" ∉ order) :
    run_vol_parallel env order =
      order.map (entryOf env) ++
        [("_failures", DictVal.failureMap (order.filterMap (failEntryOf env)))] := by
  unfold run_vol_parallel
  rw [runnerFold_closed env order ([], []) hnd (by intro p _; exact ⟨rfl, rfl⟩)]
  simp only [List.nil_append]
  rw [dictInsert_fresh _ (containsKey_map_entry_false env hf)]

theorem dictFind_map_entry (env : Env) {order : List String} {q : String}
    (h : q ∈ order) :
    dictFind (order.map (entryOf env)) q = some (DictVal.output (resultOf env q)) := by
  induction order with
  | nil => cases h
  | cons p rest ih =>
    rw [List.map_cons]
    by_cases hpq : p = q
    · subst hpq
      rw [dictFind_cons_pos (by simp [entryOf])]
      simp [entryOf]
    · have hq : q ∈ rest := by
        rcases List.mem_cons.mp h with h1 | h1
        · exact absurd h1.symm hpq
        · exact h1
      rw [dictFind_cons_neg (by simp [entryOf]; simpa using hpq)]
      exact ih hq

theorem dictFind_filterMap_fail_notMem (env : Env) {order : List String} {q : String}
    (h : q ∉ order) :
    dictFind (order.filterMap (failEntryOf env)) q = none := by
  induction order with
  | nil => rfl
  | cons p rest ih =>
    have hpq : p ≠ q := fun hx => h (hx ▸ List.mem_cons_self p rest)
    have hq : q ∉ rest := fun hx => h (List.mem_cons_of_mem p hx)
    cases hf : failureOf env p with
    | some r =>
      rw [failEntry_cons_some hf, dictFind_cons_neg (by simpa using hpq)]
      exact ih hq
    | none =>
      rw [failEntry_cons_none hf]
      exact ih hq

theorem dictFind_filterMap_fail (env : Env) {order : List String} {q : String}
    (hnd : order.Nodup) (h : q ∈ order) :
    dictFind (order.filterMap (failEntryOf env)) q = failureOf env q := by
  induction order with
  | nil => cases h
  | cons p rest ih =>
    have hpr : p ∉ rest := (List.nodup_cons.mp hnd).1
    have hndr : rest.Nodup := (List.nodup_cons.mp hnd).2
    by_cases hpq : p = q
    · subst hpq
      cases hf : failureOf env p with
      | some r =>
        rw [failEntry_cons_some hf, dictFind_cons_pos (by simp)]
      | none =>
        rw [failEntry_cons_none hf, dictFind_filterMap_fail_notMem env hpr]
    · have hq : q ∈ rest := by
        rcases List.mem_cons.mp h with h1 | h1
        · exact absurd h1.symm hpq
        · exact h1
      cases hf : failureOf env p with
      | some r =>
        rw [failEntry_cons_some hf, dictFind_cons_neg (by simpa using hpq)]
        exact ih hndr hq
      | none =>
        rw [failEntry_cons_none hf]
        exact ih hndr hq

theorem failuresOf_parallel (env : Env) {order : List String}
    (hnd : order.Nodup) (hf : "_failures" ∉ order) :
    failuresOf (run_vol_parallel env order) = order.filterMap (failEntryOf env) := by
  unfold failuresOf
  rw [run_vol_parallel_closed env hnd hf,
    dictFind_append_of_not_left (containsKey_map_entry_false env hf),
    dictFind_cons_pos (by simp)]

theorem dictFind_parallel (env : Env) {order : List String} {p : String}
    (hnd : order.Nodup) (hf : "_failures" ∉ order) (hp : p ∈ order) :
    dictFind (run_vol_parallel env order) p = some (DictVal.output (resultOf env p)) := by
  rw [run_vol_parallel_closed env hnd hf]
  exact dictFind_append_left (dictFind_map_entry env hp)

/-! ## Supporting lemmas for the claim theorems -/

instance : DecidableEq (Except MemflowError Report) := fun a b =>
  match a, b with
  | .ok x, .ok y =>
    if h : x = y then .isTrue (by rw [h]) else .isFalse (by intro hx; cases hx; exact h rfl)
  | .error x, .error y =>
    if h : x = y then .isTrue (by rw [h]) else .isFalse (by intro hx; cases hx; exact h rfl)
  | .ok _, .error _ => .isFalse (by intro hx; cases hx)
  | .error _, .ok _ => .isFalse (by intro hx; cases hx)

theorem findFormatMatch_cons (n : String) (ss : List (List Nat))
    (rest : List (String × List (List Nat))) (hdr : List Nat) :
    findFormatMatch ((n, ss) :: rest) hdr =
      match ss.find? (fun sig => occursIn sig hdr) with
      | some sig => some (n, sig)
      | none => findFormatMatch rest hdr := rfl

theorem findFormatMatch_append {hdr : List Nat}
    {rest : List (String × List (List Nat))} :
    ∀ {pre : List (String × List (List Nat))},
    (∀ pr ∈ pre, ∀ s ∈ pr.2, occursIn s hdr = false) →
    findFormatMatch (pre ++ rest) hdr = findFormatMatch rest hdr := by
  intro pre
  induction pre with
  | nil => intro _; rfl
  | cons pr pre ih =>
    intro h
    obtain ⟨n, ss⟩ := pr
    rw [List.cons_append, findFormatMatch_cons]
    have hnone : ss.find? (fun sig => occursIn sig hdr) = none := by
      rw [List.find?_eq_none]
      intro x hx
      simp [h (n, ss) (List.mem_cons_self _ _) x hx]
    rw [hnone]
    exact ih (fun q hq s hs => h q (List.mem_cons_of_mem _ hq) s hs)

theorem osScoreOf_pickOS (w l m : Nat) :
    osScoreOf w l m (pickOS w l m) = max w (max l m) := by
  unfold pickOS
  split_ifs <;> simp [osScoreOf] <;> omega

theorem calculate_signature_score_from (sample : List Nat) :
    ∀ (sigs : List (List Nat)) (n : Nat),
    sigs.foldl
      (fun score sig =>
        let count := countOccs sig sample
        if 0 < count then
          let pos := (findSub sig sample).getD 0
          score + (if pos < sample.length / 4 then count * 10 else count * 5)
        else score)
      n =
    n + (sigs.map (fun sig =>
      if 0 < countOccs sig sample then
        (if (findSub sig sample).getD 0 < sample.length / 4 then
          countOccs sig sample * 10 else countOccs sig sample * 5)
      else 0)).sum := by
  intro sigs
  induction sigs with
  | nil => intro n; simp
  | cons sig rest ih =>
    intro n
    rw [List.foldl_cons, List.map_cons, List.sum_cons]
    by_cases hc : 0 < countOccs sig sample
    · simp only [hc, if_true, ih]
      omega
    · simp only [hc, if_false, ih]
      omega

theorem determine_os_confidence_eq (os : OSType) (ev : List Evidence) (h : Nat)
    (wi : Option (List (String × String))) (ls ms : Bool) :
    determine_os_confidence (os, ev, h) wi ls ms =
      { operating_system := os
        confidence_score :=
          if volatility_confirms os wi ls ms then min 100 (h + 30)
          else if 70 ≤ h then h else if 0 < h then h else 0
        confidence_level :=
          if volatility_confirms os wi ls ms then "HIGH"
          else if 70 ≤ h then "MEDIUM" else if 0 < h then "LOW" else "NONE"
        detection_method :=
          if volatility_confirms os wi ls ms then "Heuristic + Volatility Confirmation"
          else if 70 ≤ h then "Heuristic Only"
          else if 0 < h then "Heuristic Only (Weak)" else "No OS signatures detected"
        evidence := ev
        windows_compatible := wi.isSome
        linux_compatible := ls
        macos_compatible := ms } := by
  simp only [determine_os_confidence]
  split_ifs <;> rfl

/-! ## Claim theorems -/

/-- C4: `determine_os_confidence` applies, in order: confirmed gives
confidence min(100, heuristic + 30) with tier HIGH; else heuristic at
least 70 gives MEDIUM with the confidence unchanged; else positive
heuristic gives LOW unchanged; else NONE with confidence 0.  And for
the same heuristic input (with heuristic confidence in its 0..100
range), a confirmed detection scores at least as high as any other
signal combination. -/
theorem confidence_fusion_rules (os : OSType) (ev : List Evidence) (h : Nat)
    (wi wi2 : Option (List (String × String))) (ls ms ls2 ms2 : Bool) :
    (volatility_confirms os wi ls ms = true →
      (determine_os_confidence (os, ev, h) wi ls ms).confidence_score = min 100 (h + 30) ∧
      (determine_os_confidence (os, ev, h) wi ls ms).confidence_level = "HIGH") ∧
    (volatility_confirms os wi ls ms = false → 70 ≤ h →
      (determine_os_confidence (os, ev, h) wi ls ms).confidence_score = h ∧
      (determine_os_confidence (os, ev, h) wi ls ms).confidence_level = "MEDIUM") ∧
    (volatility_confirms os wi ls ms = false → h < 70 → 0 < h →
      (determine_os_confidence (os, ev, h) wi ls ms).confidence_score = h ∧
      (determine_os_confidence (os, ev, h) wi ls ms).confidence_level = "LOW") ∧
    (volatility_confirms os wi ls ms = false → h = 0 →
      (determine_os_confidence (os, ev, h) wi ls ms).confidence_score = 0 ∧
      (determine_os_confidence (os, ev, h) wi ls ms).confidence_level = "NONE") ∧
    (h ≤ 100 → volatility_confirms os wi2 ls2 ms2 = true →
      (determine_os_confidence (os, ev, h) wi ls ms).confidence_score ≤
        (determine_os_confidence (os, ev, h) wi2 ls2 ms2).confidence_score) := by
  rw [determine_os_confidence_eq, determine_os_confidence_eq]
  refine ⟨?_, ?_, ?_, ?_, ?_⟩
  · intro hc; rw [hc]; exact ⟨rfl, rfl⟩
  · intro hc h70; rw [hc]; simp [h70]
  · intro hc h70 hpos
    rw [hc]
    have h1 : ¬ (70 ≤ h) := by omega
    simp [h1, hpos]
  · intro hc h0; subst h0; rw [hc]; simp
  · intro h100 hc2
    rw [hc2]
    simp only [if_true]
    split_ifs <;> omega

/-- C4 witness: a confirmed Windows detection at heuristic 60 fuses to
90/HIGH, and dominates the unconfirmed fusion of the same input. -/
theorem confidence_fusion_rules_witness :
    (determine_os_confidence (OSType.windows, [], 60) (some [("Kernel", "x")]) false false).confidence_score = 90 ∧
    (determine_os_confidence (OSType.windows, [], 60) none false false).confidence_score ≤
      (determine_os_confidence (OSType.windows, [], 60) (some [("Kernel", "x")]) false false).confidence_score := by
  have h := confidence_fusion_rules OSType.windows [] 60 none (some [("Kernel", "x")]) false false false false
  have h2 := confidence_fusion_rules OSType.windows [] 60 (some [("Kernel", "x")]) none false false false false
  refine ⟨?_, h.2.2.2.2 (by decide) rfl⟩
  rw [(h2.1 rfl).1]
  decide

/-- C6: whenever some format signature occurs in the first 64 bytes of
the header window, `detect_dump_format` returns the format of the first
table entry (in declaration order) with a matching signature, with
confidence 90, is_compressed false, and evidence naming that entry and
the matched signature (truncated to 8 bytes). -/
theorem format_detector_first_match (header : List Nat) (size_bytes : Nat)
    (pre post : List (String × List (List Nat))) (name : String)
    (sigs : List (List Nat)) (sig : List Nat)
    (htable : FORMAT_SIGNATURES = pre ++ (name, sigs) :: post)
    (hpre : ∀ pr ∈ pre, ∀ s ∈ pr.2, occursIn s (header.take 64) = false)
    (hfind : sigs.find? (fun s => occursIn s (header.take 64)) = some sig) :
    detect_dump_format_core header size_bytes =
      { format_type := map_format_name name
        confidence := 90
        evidence := [Evidence.foundFormatSig name (sig.take 8)]
        size_bytes := size_bytes
        is_compressed := false } := by
  have hm : findFormatMatch FORMAT_SIGNATURES (header.take 64) = some (name, sig) := by
    rw [htable, findFormatMatch_append hpre, findFormatMatch_cons, hfind]
  unfold detect_dump_format_core
  rw [hm]

/-- C6 witness: a header starting with the PAGEDUMP magic is detected
as a Windows crash dump with confidence 90 (scenario B of the spec). -/
theorem format_detector_first_match_witness :
    detect_dump_format_core
        ([80, 65, 71, 69, 68, 85, 77, 80] ++ List.replicate 504 0) 4096 =
      { format_type := map_format_name "WINDOWS_CRASH_DUMP"
        confidence := 90
        evidence := [Evidence.foundFormatSig "WINDOWS_CRASH_DUMP"
          ([80, 65, 71, 69, 68, 85, 77, 80].take 8)]
        size_bytes := 4096
        is_compressed := false } :=
  format_detector_first_match _ 4096 []
    [("WINDOWS_HIBERNATION", [[104, 105, 98, 114], [129, 0, 0, 0]]),
     ("ELF_CORE", [[127, 69, 76, 70]]),
     ("LIME", [[69, 77, 105, 76]]),
     ("VMWARE", [[46, 118, 109, 101, 109]]),
     ("VIRTUALBOX", [[86, 105, 114, 116, 117, 97, 108, 66, 111, 120]])]
    "WINDOWS_CRASH_DUMP"
    [[80, 65, 71, 69, 68, 85, 77, 80], [80, 65, 71, 69], [77, 68, 77, 80]]
    [80, 65, 71, 69, 68, 85, 77, 80]
    rfl (by intro pr hpr; cases hpr) (by decide)

/-- C7: with no matching format signature in the first 64 bytes,
`detect_dump_format` returns raw with confidence 50, and is_compressed
holds exactly when the header starts with one of the gzip, bzip2, zip
or xz magics. -/
theorem format_detector_raw_fallback (header : List Nat) (size_bytes : Nat)
    (hnone : ∀ pr ∈ FORMAT_SIGNATURES, ∀ s ∈ pr.2, occursIn s (header.take 64) = false) :
    detect_dump_format_core header size_bytes =
      { format_type := DumpFormat.raw
        confidence := 50
        evidence := [Evidence.noFormatSig]
        size_bytes := size_bytes
        is_compressed := check_compression header } ∧
    (check_compression header = true ↔
      (isPrefixOfB [31, 139] header = true ∨ isPrefixOfB [66, 90] header = true ∨
       isPrefixOfB [80, 75] header = true ∨ isPrefixOfB [253, 55] header = true)) := by
  constructor
  · have hm : findFormatMatch FORMAT_SIGNATURES (header.take 64) = none := by
      have h1 := @findFormatMatch_append (header.take 64) [] FORMAT_SIGNATURES hnone
      rw [List.append_nil] at h1
      exact h1
    unfold detect_dump_format_core
    rw [hm]
  · simp [check_compression, compression_signatures]

/-- C7 witness: an all-zero header matches nothing, yields raw with
confidence 50, and is not flagged as compressed. -/
theorem format_detector_raw_fallback_witness :
    detect_dump_format_core (List.replicate 512 0) 4096 =
      { format_type := DumpFormat.raw
        confidence := 50
        evidence := [Evidence.noFormatSig]
        size_bytes := 4096
        is_compressed := check_compression (List.replicate 512 0) } ∧
    (check_compression (List.replicate 512 0) = true ↔
      (isPrefixOfB [31, 139] (List.replicate 512 0) = true ∨
       isPrefixOfB [66, 90] (List.replicate 512 0) = true ∨
       isPrefixOfB [80, 75] (List.replicate 512 0) = true ∨
       isPrefixOfB [253, 55] (List.replicate 512 0) = true)) :=
  format_detector_raw_fallback (List.replicate 512 0) 4096 (by decide)

/-- The full concatenation of the tiers a given OS can ever select, in
declaration order; `_select_plugins` output is always a sublist of it. -/
def tier_concat_order : OSType → List String
  | .windows => WINDOWS_PLUGINS.essential ++ WINDOWS_PLUGINS.network ++
      WINDOWS_PLUGINS.malware ++ WINDOWS_PLUGINS.advanced
  | .linux => LINUX_PLUGINS.essential ++ LINUX_PLUGINS.network ++ LINUX_PLUGINS.advanced
  | .macos => MACOS_PLUGINS.essential ++ MACOS_PLUGINS.network ++ MACOS_PLUGINS.advanced
  | .unknown => WINDOWS_PLUGINS.essential ++ LINUX_PLUGINS.essential.take 2

/-- C8: for every OS family and every depth level string, the selected
plugin list has no duplicates and is a sublist of the tier declaration
order (essential, then network, then malware, then advanced); for a
Windows classification at the essential depth it is exactly the 4
declared essential Windows commands, in order, with no other tier. -/
theorem plugin_selector_order (os : OSType) (level : String) :
    (select_plugins os level).Nodup ∧
    (select_plugins os level).Sublist (tier_concat_order os) ∧
    select_plugins OSType.windows "essential" =
      ["windows.info", "windows.pslist", "windows.pstree", "windows.cmdline"] := by
  refine ⟨?_, ?_, rfl⟩ <;>
  · cases os <;> simp only [select_plugins] <;> first
      | (split_ifs <;> decide)
      | decide

theorem contribution_cast (sample : List Nat) :
    ∀ sigs : List (List Nat),
    (((sigs.map (fun sig =>
        if 0 < countOccs sig sample then
          (if (findSub sig sample).getD 0 < sample.length / 4 then
            countOccs sig sample * 10 else countOccs sig sample * 5)
        else 0)).sum : ℕ) : ℚ) =
    (sigs.map (fun sig =>
      (countOccs sig sample : ℚ) * 10 *
        (if (findSub sig sample).getD 0 < sample.length / 4 then 1 else 1 / 2))).sum := by
  intro sigs
  induction sigs with
  | nil => simp
  | cons s rest ih =>
    rw [List.map_cons, List.sum_cons, List.map_cons, List.sum_cons, Nat.cast_add, ih]
    congr 1
    by_cases hc : 0 < countOccs s sample
    · by_cases he : (findSub s sample).getD 0 < sample.length / 4
      · simp only [hc, he, if_true]
        push_cast
        ring
      · simp only [hc, he, if_true, if_false]
        push_cast
        ring
    · have h0 : countOccs s sample = 0 := by omega
      simp [hc, h0]

/-- C5: the family score is the sum, over the family signatures, of
occurrence count times 10 times a position weight that is 1 inside the
first quarter of the sample and 1/2 after; a zero maximum yields the
unknown family with confidence 0, and otherwise the detected family is
one of maximal score with confidence min(100, 50 + score). -/
theorem os_classifier_scoring (sample : List Nat) :
    (∀ sigs : List (List Nat),
      (calculate_signature_score sample sigs : ℚ) =
        (sigs.map (fun sig =>
          (countOccs sig sample : ℚ) * 10 *
            (if (findSub sig sample).getD 0 < sample.length / 4 then 1 else 1 / 2))).sum) ∧
    (max (calculate_signature_score sample WINDOWS_SIGNATURES)
        (max (calculate_signature_score sample LINUX_SIGNATURES)
          (calculate_signature_score sample MAC_SIGNATURES)) = 0 →
      enhanced_os_detection_core sample = (OSType.unknown, [Evidence.noOSSignatures], 0)) ∧
    (0 < max (calculate_signature_score sample WINDOWS_SIGNATURES)
        (max (calculate_signature_score sample LINUX_SIGNATURES)
          (calculate_signature_score sample MAC_SIGNATURES)) →
      osScoreOf (calculate_signature_score sample WINDOWS_SIGNATURES)
          (calculate_signature_score sample LINUX_SIGNATURES)
          (calculate_signature_score sample MAC_SIGNATURES)
          (enhanced_os_detection_core sample).1 =
        max (calculate_signature_score sample WINDOWS_SIGNATURES)
          (max (calculate_signature_score sample LINUX_SIGNATURES)
            (calculate_signature_score sample MAC_SIGNATURES)) ∧
      (enhanced_os_detection_core sample).2.2 =
        min 100 (50 + max (calculate_signature_score sample WINDOWS_SIGNATURES)
          (max (calculate_signature_score sample LINUX_SIGNATURES)
            (calculate_signature_score sample MAC_SIGNATURES)))) := by
  have hcore : enhanced_os_detection_core sample =
      if 0 < max (calculate_signature_score sample WINDOWS_SIGNATURES)
          (max (calculate_signature_score sample LINUX_SIGNATURES)
            (calculate_signature_score sample MAC_SIGNATURES)) then
        (pickOS (calculate_signature_score sample WINDOWS_SIGNATURES)
            (calculate_signature_score sample LINUX_SIGNATURES)
            (calculate_signature_score sample MAC_SIGNATURES),
         generate_evidence (pickOS (calculate_signature_score sample WINDOWS_SIGNATURES)
            (calculate_signature_score sample LINUX_SIGNATURES)
            (calculate_signature_score sample MAC_SIGNATURES)) sample,
         min 100 (50 + max (calculate_signature_score sample WINDOWS_SIGNATURES)
            (max (calculate_signature_score sample LINUX_SIGNATURES)
              (calculate_signature_score sample MAC_SIGNATURES))))
      else (OSType.unknown, [Evidence.noOSSignatures], 0) := by
    simp only [enhanced_os_detection_core, osScoreOf_pickOS]
  refine ⟨?_, ?_, ?_⟩
  · intro sigs
    have hNat := calculate_signature_score_from sample sigs 0
    have hcalc : calculate_signature_score sample sigs =
        (sigs.map (fun sig =>
          if 0 < countOccs sig sample then
            (if (findSub sig sample).getD 0 < sample.length / 4 then
              countOccs sig sample * 10 else countOccs sig sample * 5)
          else 0)).sum := by
      unfold calculate_signature_score
      rw [hNat]
      exact Nat.zero_add _
    rw [hcalc, contribution_cast]
  · intro h0
    rw [hcore, h0]
    rfl
  · intro hpos
    rw [hcore, if_pos hpos]
    exact ⟨osScoreOf_pickOS _ _ _, rfl⟩

/-- The 13 bytes of the string "Linux version" (scenario C of the
spec: one Linux signature occurring once, at the very start of the
sample). -/
def linuxVersionSample : List Nat :=
  [76, 105, 110, 117, 120, 32, 118, 101, 114, 115, 105, 111, 110]

/-- C5 witness: a sample that is exactly one early occurrence of the
"Linux version" signature classifies as linux with confidence
50 + 10 = 60. -/
theorem os_classifier_scoring_witness :
    (enhanced_os_detection_core linuxVersionSample).1 = OSType.linux ∧
    (enhanced_os_detection_core linuxVersionSample).2.2 = 60 := by
  have h := (os_classifier_scoring linuxVersionSample).2.2 (by decide)
  constructor
  · decide
  · rw [h.2]
    decide

/-- C9: `full_analysis` fails with a typed MemflowError, before any
analysis stage, when the path is missing, is not a regular file, or
names a file below the 1024-byte floor; at or above the floor the
validation stage passes. -/
theorem full_analysis_validation (env : Env) (lvl : String) :
    MIN_FILE_SIZE = 1024 ∧
    (env.pathExists = false →
      full_analysis env lvl = .error (.memflowError ("File not found: " ++ env.path))) ∧
    (env.pathExists = true → env.isFile = false →
      full_analysis env lvl = .error (.memflowError ("Not a file: " ++ env.path))) ∧
    (env.pathExists = true → env.isFile = true → env.sizeBytes < MIN_FILE_SIZE →
      full_analysis env lvl = .error (.memflowError
        ("File too small (" ++ toString env.sizeBytes ++
          " bytes), likely not a valid memory dump"))) ∧
    (env.pathExists = true → env.isFile = true → MIN_FILE_SIZE ≤ env.sizeBytes →
      validate_dump env = .ok ()) := by
  refine ⟨rfl, ?_, ?_, ?_, ?_⟩
  · intro h
    have hv : validate_dump env =
        .error (.memflowError ("File not found: " ++ env.path)) := by
      simp [validate_dump, h]
    unfold full_analysis
    rw [hv]
  · intro h1 h2
    have hv : validate_dump env =
        .error (.memflowError ("Not a file: " ++ env.path)) := by
      simp [validate_dump, h1, h2]
    unfold full_analysis
    rw [hv]
  · intro h1 h2 h3
    have hv : validate_dump env = .error (.memflowError
        ("File too small (" ++ toString env.sizeBytes ++
          " bytes), likely not a valid memory dump")) := by
      simp [validate_dump, h1, h2, h3]
    unfold full_analysis
    rw [hv]
  · intro h1 h2 h3
    have h4 : ¬ (env.sizeBytes < MIN_FILE_SIZE) := by omega
    simp [validate_dump, h1, h2, h4]

/-- C9 witness: a missing path fails with the typed "File not found"
error, and a 1024-byte regular file passes validation. -/
theorem full_analysis_validation_witness :
    full_analysis
        { path := "absent.dmp", pathExists := false, isFile := false, sizeBytes := 0,
          readOk := false, readErr := "No such file", content := [],
          volResolved := true, outcome := fun _ => RunOutcome.timedOut, order := id }
        "essential" =
      .error (.memflowError ("File not found: " ++ "absent.dmp")) ∧
    validate_dump
        { path := "ok.dmp", pathExists := true, isFile := true, sizeBytes := 1024,
          readOk := true, readErr := "", content := List.replicate 1024 0,
          volResolved := true, outcome := fun _ => RunOutcome.timedOut, order := id } =
      .ok () := by
  constructor
  · exact ((full_analysis_validation _ "essential").2.1 rfl)
  · exact ((full_analysis_validation _ "essential").2.2.2.2 rfl rfl (by decide))

/-- C10: `enhanced_os_detection` is total at its boundary (its return
type carries no error case); on a read failure it returns the unknown
family with confidence 0 and an evidence entry carrying the error text,
whereas `detect_dump_format` re-raises the failure as a MemflowError. -/
theorem os_detection_total_boundary (env : Env) (hread : env.readOk = false) :
    enhanced_os_detection env =
      (OSType.unknown, [Evidence.osDetectionError env.readErr], 0) ∧
    detect_dump_format env =
      .error (.memflowError ("Format detection failed: " ++ env.readErr)) := by
  constructor
  · simp [enhanced_os_detection, hread]
  · simp [detect_dump_format, hread]

/-- C10 witness: on an unreadable file, OS detection degrades to
unknown with confidence 0 while format detection raises. -/
theorem os_detection_total_boundary_witness :
    enhanced_os_detection
        { path := "locked.dmp", pathExists := true, isFile := true, sizeBytes := 4096,
          readOk := false, readErr := "Permission denied", content := [],
          volResolved := true, outcome := fun _ => RunOutcome.timedOut, order := id } =
      (OSType.unknown, [Evidence.osDetectionError "Permission denied"], 0) ∧
    detect_dump_format
        { path := "locked.dmp", pathExists := true, isFile := true, sizeBytes := 4096,
          readOk := false, readErr := "Permission denied", content := [],
          volResolved := true, outcome := fun _ => RunOutcome.timedOut, order := id } =
      .error (.memflowError ("Format detection failed: " ++ "Permission denied")) :=
  os_detection_total_boundary _ rfl

/-- C1 (amended): for distinct submitted command names (none of them
the reserved bookkeeping key) and any completion order, the returned
dict has N + 1 entries: the N command names in completion order plus
the reserved failure sub-dict at the end; every command name appears
exactly once, with its recorded output, and it has a failure entry
exactly when that output is falsy. -/
theorem parallel_runner_result_map (env : Env) (plugins order : List String)
    (hperm : order.Perm plugins) (hnd : plugins.Nodup) (hres : "_failures" ∉ plugins) :
    (run_vol_parallel env order).length = plugins.length + 1 ∧
    (run_vol_parallel env order).map Prod.fst = order ++ ["_failures"] ∧
    ∀ p ∈ plugins,
      dictFind (run_vol_parallel env order) p = some (DictVal.output (resultOf env p)) ∧
      (dictFind (failuresOf (run_vol_parallel env order)) p = none ↔
        pyFalsy (resultOf env p) = false) := by
  have hndo : order.Nodup := hperm.symm.nodup hnd
  have hfo : "_failures" ∉ order := fun hx => hres (hperm.mem_iff.mp hx)
  have hclosed := run_vol_parallel_closed env hndo hfo
  refine ⟨?_, ?_, ?_⟩
  · rw [hclosed]
    simp [hperm.length_eq]
  · rw [hclosed, List.map_append, List.map_map]
    have hcomp : (Prod.fst ∘ entryOf env) = id := rfl
    rw [hcomp, List.map_id]
    rfl
  · intro p hp
    have hpo : p ∈ order := hperm.mem_iff.mpr hp
    refine ⟨dictFind_parallel env hndo hfo hpo, ?_⟩
    rw [failuresOf_parallel env hndo hfo, dictFind_filterMap_fail env hndo hpo]
    unfold failureOf
    cases hrv : run_vol env p with
    | ok v =>
      cases hfv : pyFalsy v with
      | true => simp [resultOf, hrv, hfv]
      | false => simp [resultOf, hrv, hfv]
    | error e => simp [resultOf, hrv, pyFalsy]

/-- Environment for the C1 witness: one command succeeds with output,
the other would time out; the pool completes them in reversed order. -/
def envC1w : Env :=
  { path := "mem.dmp", pathExists := true, isFile := true, sizeBytes := 4096,
    readOk := true, readErr := "", content := [], volResolved := true,
    outcome := fun c =>
      if c == "windows.info" then RunOutcome.completed 0 "Kernel Base 0xf80" ""
      else RunOutcome.timedOut,
    order := fun l => l.reverse }

/-- C1 witness: two distinct commands completing in reversed order give
a 3-entry dict keyed by the completion order plus the reserved key. -/
theorem parallel_runner_result_map_witness :
    (run_vol_parallel envC1w ["windows.pslist", "windows.info"]).length = 3 ∧
    (run_vol_parallel envC1w ["windows.pslist", "windows.info"]).map Prod.fst =
      ["windows.pslist", "windows.info"] ++ ["_failures"] := by
  have h := parallel_runner_result_map envC1w ["windows.info", "windows.pslist"]
    ["windows.pslist", "windows.info"] (by decide) (by decide) (by decide)
  exact ⟨h.1, h.2.1⟩

/-- Environment for the C1 counterexample: a single command that
succeeds with non-empty output. -/
def envC1 : Env :=
  { path := "mem.dmp", pathExists := true, isFile := true, sizeBytes := 4096,
    readOk := true, readErr := "", content := [], volResolved := true,
    outcome := fun _ => RunOutcome.completed 0 "PID Process" "", order := id }

/-- C1 counterexample: for N = 1 submitted commands the map returned by
`run_vol_parallel` has 2 entries, not exactly N, because the failure
sub-dict is stored in the same dict under a reserved key. -/
theorem parallel_runner_result_map_counterexample :
    (run_vol_parallel envC1 ["windows.info"]).length = 2 ∧
    ¬ (run_vol_parallel envC1 ["windows.info"]).length = 1 ∧
    (run_vol_parallel envC1 ["windows.info"]).map Prod.fst =
      ["windows.info", "_failures"] := by
  refine ⟨by decide, by decide, by decide⟩

/-- C2 (amended): when the external tool cannot be located, `run_vol`
does raise the typed VolatilityNotFoundError, but inside
`run_vol_parallel` the worker-boundary handler catches it and records
its message as an ordinary per-command failure for every command, and
`full_analysis` on an otherwise valid readable file still completes
with a report instead of propagating the error. -/
theorem tool_not_found_absorbed :
    (∀ (env : Env) (cmd : String), env.volResolved = false →
      run_vol env cmd = .error (.volatilityNotFound volNotFoundMsg)) ∧
    (∀ (env : Env) (plugins order : List String) (p : String),
      order.Perm plugins → plugins.Nodup → "_failures" ∉ plugins → p ∈ plugins →
      env.volResolved = false →
      dictFind (failuresOf (run_vol_parallel env order)) p = some volNotFoundMsg ∧
      dictFind (run_vol_parallel env order) p = some (DictVal.output none)) ∧
    (∀ (env : Env) (lvl : String),
      env.volResolved = false → env.pathExists = true → env.isFile = true →
      MIN_FILE_SIZE ≤ env.sizeBytes → env.readOk = true →
      (full_analysis env lvl).isOk = true) := by
  refine ⟨?_, ?_, ?_⟩
  · intro env cmd hvol
    simp [run_vol, hvol]
  · intro env plugins order p hperm hnd hres hp hvol
    have hndo : order.Nodup := hperm.symm.nodup hnd
    have hfo : "_failures" ∉ order := fun hx => hres (hperm.mem_iff.mp hx)
    have hpo : p ∈ order := hperm.mem_iff.mpr hp
    constructor
    · rw [failuresOf_parallel env hndo hfo, dictFind_filterMap_fail env hndo hpo]
      unfold failureOf
      simp [run_vol, hvol, errStr]
    · rw [dictFind_parallel env hndo hfo hpo]
      unfold resultOf
      simp [run_vol, hvol]
  · intro env lvl _ hpe hif hsz hro
    have h4 : ¬ (env.sizeBytes < MIN_FILE_SIZE) := by omega
    have hv : validate_dump env = .ok () := by simp [validate_dump, hpe, hif, h4]
    have hd : detect_dump_format env =
        .ok (detect_dump_format_core (env.content.take 512) env.sizeBytes) := by
      simp [detect_dump_format, hro]
    have hh : file_hashes env = .ok () := by simp [file_hashes, hro]
    unfold full_analysis
    rw [hv, hd, hh]
    rfl

/-- Environment for the C2 witness: unresolvable tool, valid file. -/
def envC2w : Env :=
  { path := "mem.dmp", pathExists := true, isFile := true, sizeBytes := 2048,
    readOk := true, readErr := "", content := [], volResolved := false,
    outcome := fun _ => RunOutcome.completed 0 "x" "", order := id }

/-- C2 witness: the typed error is raised by `run_vol`, recorded as a
per-command failure by `run_vol_parallel`, and `full_analysis` still
returns a report. -/
theorem tool_not_found_absorbed_witness :
    run_vol envC2w "windows.info" = .error (.volatilityNotFound volNotFoundMsg) ∧
    dictFind (failuresOf (run_vol_parallel envC2w ["windows.info"])) "windows.info" =
      some volNotFoundMsg ∧
    (full_analysis envC2w "essential").isOk = true := by
  have h := tool_not_found_absorbed
  exact ⟨h.1 envC2w "windows.info" rfl,
    (h.2.1 envC2w ["windows.info"] ["windows.info"] "windows.info"
      (List.Perm.refl _) (by decide) (by decide) (by decide) rfl).1,
    h.2.2 envC2w "essential" rfl rfl rfl (by decide) rfl⟩

/-- Environment for the C2 counterexample: a valid 1 KiB all-zero dump
with the external tool unresolvable. -/
def envC2 : Env :=
  { path := "mem.dmp", pathExists := true, isFile := true, sizeBytes := 1024,
    readOk := true, readErr := "", content := List.replicate 1024 0,
    volResolved := false, outcome := fun _ => RunOutcome.completed 0 "" "", order := id }

set_option maxRecDepth 40000 in
/-- C2 counterexample: with the tool entirely unresolvable the run does
not abort and no error propagates: `full_analysis` returns a complete
report whose failure map carries the tool-not-found message for each of
the 6 selected commands, contradicting the claimed Failed terminal
state. -/
theorem tool_not_found_fatal_counterexample :
    full_analysis envC2 "essential" = Except.ok
      { plugin_level := "essential"
        plugins_executed := 6
        plugins_successful := 0
        size_bytes := 1024
        format := { format_type := DumpFormat.raw, confidence := 50,
                    evidence := [Evidence.noFormatSig], size_bytes := 1024,
                    is_compressed := false }
        os_detection := { operating_system := OSType.unknown, confidence_score := 0,
                          confidence_level := "NONE",
                          detection_method := "No OS signatures detected",
                          evidence := [Evidence.noOSSignatures], windows_compatible := false,
                          linux_compatible := false, macos_compatible := false }
        plugin_failures := some [("windows.info", volNotFoundMsg),
          ("windows.pslist", volNotFoundMsg), ("windows.pstree", volNotFoundMsg),
          ("windows.cmdline", volNotFoundMsg), ("linux.bash", volNotFoundMsg),
          ("linux.pslist", volNotFoundMsg)]
        plugins_attempted := [("windows.info", false), ("windows.pslist", false),
          ("windows.pstree", false), ("windows.cmdline", false),
          ("linux.bash", false), ("linux.pslist", false)] } := by
  decide

/-- C3 (amended): on a timeout `run_vol` returns None (the timeout
message is only printed to stderr, and suppressed under the silent flag
`run_vol_parallel` uses), so the failure reason `run_vol_parallel`
records is the same "No output returned" used for a nonzero exit and
for empty output: the recorded reason does not carry the timeout
duration and does not distinguish an execution error from zero
findings. -/
theorem timeout_reason_uniform (env : Env) (plugins order : List String) (p : String)
    (hperm : order.Perm plugins) (hnd : plugins.Nodup) (hres : "_failures" ∉ plugins)
    (hp : p ∈ plugins) (hvol : env.volResolved = true) :
    (env.outcome p = RunOutcome.timedOut →
      run_vol env p = .ok none ∧
      dictFind (failuresOf (run_vol_parallel env order)) p = some "No output returned") ∧
    (∀ rc out err, env.outcome p = RunOutcome.completed rc out err →
      (rc ≠ 0 ∨ out = "") →
      dictFind (failuresOf (run_vol_parallel env order)) p = some "No output returned") ∧
    (∀ msg, env.outcome p = RunOutcome.raised msg →
      dictFind (failuresOf (run_vol_parallel env order)) p = some "No output returned") := by
  have hndo : order.Nodup := hperm.symm.nodup hnd
  have hfo : "_failures" ∉ order := fun hx => hres (hperm.mem_iff.mp hx)
  have hpo : p ∈ order := hperm.mem_iff.mpr hp
  have hfail : dictFind (failuresOf (run_vol_parallel env order)) p = failureOf env p := by
    rw [failuresOf_parallel env hndo hfo, dictFind_filterMap_fail env hndo hpo]
  refine ⟨?_, ?_, ?_⟩
  · intro ho
    have hrv : run_vol env p = .ok none := by simp [run_vol, hvol, ho]
    refine ⟨hrv, ?_⟩
    rw [hfail]
    unfold failureOf
    rw [hrv]
    rfl
  · intro rc out err ho hbad
    have hrv : run_vol env p = .ok none := by
      rcases hbad with hb | hb
      · simp [run_vol, hvol, ho, hb]
      · subst hb
        simp [run_vol, hvol, ho]
    rw [hfail]
    unfold failureOf
    rw [hrv]
    rfl
  · intro msg ho
    have hrv : run_vol env p = .ok none := by simp [run_vol, hvol, ho]
    rw [hfail]
    unfold failureOf
    rw [hrv]
    rfl

/-- Environment for the C3 witness: every command times out. -/
def envC3w : Env :=
  { path := "mem.dmp", pathExists := true, isFile := true, sizeBytes := 4096,
    readOk := true, readErr := "", content := [], volResolved := true,
    outcome := fun _ => RunOutcome.timedOut, order := id }

/-- C3 witness: a timed-out command is recorded with the generic
"No output returned" reason. -/
theorem timeout_reason_uniform_witness :
    run_vol envC3w "windows.info" = .ok none ∧
    dictFind (failuresOf (run_vol_parallel envC3w ["windows.info"])) "windows.info" =
      some "No output returned" :=
  (timeout_reason_uniform envC3w ["windows.info"] ["windows.info"] "windows.info"
    (List.Perm.refl _) (by decide) (by decide) (by decide) rfl).1 rfl

/-- Environment for the C3 counterexample: the command times out. -/
def envC3 : Env :=
  { path := "mem.dmp", pathExists := true, isFile := true, sizeBytes := 4096,
    readOk := true, readErr := "", content := [], volResolved := true,
    outcome := fun _ => RunOutcome.timedOut, order := id }

/-- C3 counterexample: for a command that exceeds its (default 300 s)
timeout, the recorded failure reason is "No output returned", not the
claimed "timed out after 300s". -/
theorem timeout_reason_counterexample :
    DEFAULT_TIMEOUT = 300 ∧
    failuresOf (run_vol_parallel envC3 ["windows.info"]) =
      [("windows.info", "No output returned")] ∧
    ¬ failuresOf (run_vol_parallel envC3 ["windows.info"]) =
      [("windows.info", "timed out after 300s")] := by
  refine ⟨rfl, by decide, by decide⟩

end MemFlow
